import Mathlib

/-!
Shallow embedding of the backend core found in src/main.py and src/schemas.py:
signup/login, profile GET/PUT, the five request-submission operations, and the
per-user request listing, together with the identifier codec and the schema
validation layer. Stateful behavior is modelled as explicit state passing over
a document-store value; fallible handlers return an Except over an HTTP error.
-/

namespace Backend

/-- Floating-point values (latitude/longitude) are pure pass-through data in
this core: no arithmetic is ever performed on them, so we carry them as their
bit patterns. -/
abbrev FloatBits := Nat

/-! ## Identifier codec

src/main.py parses path identifiers with bson ObjectId. Modelled from the
spec: the ObjectId constructor (external bson library) accepts exactly the
24-character hexadecimal strings, per section 4.1 of the design: an identifier
is valid only if it matches the native key format, a 24-character hexadecimal
string. -/

def isHexChar (c : Char) : Bool :=
  c.isDigit || ('a' ≤ c && c ≤ 'f') || ('A' ≤ c && c ≤ 'F')

def isValidObjectId (s : String) : Bool :=
  s.toList.length == 24 && s.toList.all isHexChar

/-! ## Credential hasher

Modelled from the spec: the credential hasher (passlib bcrypt CryptContext,
an external collaborator) per section 4.2. hashDigest is salted and tagged;
verify is a total boolean predicate that is true iff the plaintext would hash
to the digest under the digest's salt, and is false on any malformed digest.
The one-way property of bcrypt is not modelled (no claim depends on it): a
digest here records its salt and payload explicitly. -/

def digestTagChars : List Char := ['$', '2', 'b', '$', '1', '2', '$']

def listStarts : List Char → List Char → Bool
  | [], _ => true
  | _ :: _, [] => false
  | a :: as, b :: bs => a == b && listStarts as bs

/-- A digest is well-formed when it carries the scheme tag followed by a salt,
a separator and a payload. The empty string in particular is malformed. -/
def wellFormedDigest (d : String) : Bool :=
  listStarts digestTagChars d.toList && (d.toList.drop 7).contains '$'

def digestPayload (d : String) : List Char :=
  (((d.toList.drop 7).dropWhile (fun c => c != '$')).drop 1)

def hashDigest (salt plaintext : String) : String :=
  String.mk (digestTagChars ++ salt.toList ++ ['$'] ++ plaintext.toList)

def verify (plaintext d : String) : Bool :=
  wellFormedDigest d && (digestPayload d == plaintext.toList)

/-! ## Data model (src/schemas.py) -/

/-- Nested coordinates record, from class Location in src/schemas.py. -/
structure Location where
  lat : FloatBits
  lng : FloatBits
deriving DecidableEq

/-- RequestItem from src/schemas.py: one inbound message/action from a user.
Field defaults mirror the pydantic defaults; in particular type is a plain
string and status defaults to "sent". meta is an open mapping used only to
record the uploaded byte count, so its values are modelled as naturals. -/
structure RequestItem where
  user_id : String
  type : String
  text : Option String := none
  voice_url : Option String := none
  photo_url : Option String := none
  contact_name : Option String := none
  contact_phone : Option String := none
  location : Option Location := none
  status : String := "sent"
  meta : Option (List (String × Nat)) := none
deriving DecidableEq

/-- A stored user document. The document store is schema-flexible, and
src/main.py reads name and password_hash tolerantly (dict.get), while email
and the key are accessed unconditionally; so name and password_hash are
optional here. Documents created by signup populate every field. -/
structure UserDoc where
  oid : String
  name : Option String
  email : String
  password_hash : Option String
  photo_url : Option String
deriving DecidableEq

/-- A stored request document: store key plus the validated RequestItem. -/
structure ReqDoc where
  oid : String
  item : RequestItem
deriving DecidableEq

/-- The document store: the two collections used by src/main.py. -/
structure Store where
  users : List UserDoc
  requests : List ReqDoc
deriving DecidableEq

def emptyStore : Store := ⟨[], []⟩

/-! ## Values and responses -/

/-- JSON-ish values appearing in request/response bodies. The only nested
objects this core ever produces are the Location coordinates and the meta
size map, so they get dedicated constructors. -/
inductive Value where
  | null
  | str (s : String)
  | int (n : Int)
  | float (bits : FloatBits)
  | bool (b : Bool)
  | loc (lat lng : FloatBits)
  | dict (m : List (String × Nat))
deriving DecidableEq

/-- A success body: a single JSON object, or an array of objects (the request
listing). -/
inductive Response where
  | obj (fields : List (String × Value))
  | arr (docs : List (List (String × Value)))
deriving DecidableEq

/-- An HTTPException as raised in src/main.py: status code and detail. -/
structure HTTPError where
  status : Nat
  detail : String
deriving DecidableEq

abbrev Result (α : Type) := Except HTTPError α

def invalidCredentials : HTTPError := ⟨400, "Invalid credentials"⟩

def optStrVal : Option String → Value
  | some s => .str s
  | none => .null

def optLocVal : Option Location → Value
  | some l => .loc l.lat l.lng
  | none => .null

def optDictVal : Option (List (String × Nat)) → Value
  | some m => .dict m
  | none => .null

/-! ## Validation layer (pydantic models, as the code declares them)

Inbound JSON is an association list from field names to values. Missing keys
and explicit nulls both collapse to none for optional fields; a present field
of the wrong primitive type rejects the payload. -/

def asStr : Option Value → Option String
  | some (.str s) => some s
  | _ => none

def asOptStr : Option Value → Option (Option String)
  | none => some none
  | some .null => some none
  | some (.str s) => some (some s)
  | some _ => none

def asOptLoc : Option Value → Option (Option Location)
  | none => some none
  | some .null => some none
  | some (.loc a b) => some (some ⟨a, b⟩)
  | some _ => none

def asOptDict : Option Value → Option (Option (List (String × Nat)))
  | none => some none
  | some .null => some none
  | some (.dict m) => some (some m)
  | some _ => none

/-- Modelled from the spec: EmailStr validation (external email-validator
library): text matching email syntax — a nonempty local part, one at-sign,
and a nonempty domain containing a dot. -/
def isEmailSyntax (e : String) : Bool :=
  let cs := e.toList
  let loc := cs.takeWhile (fun c => c != '@')
  match cs.dropWhile (fun c => c != '@') with
  | '@' :: dom => !loc.isEmpty && !dom.isEmpty && dom.contains '.' && !dom.contains '@'
  | _ => false

/-- SignupPayload from src/main.py: name str, email EmailStr, password str. -/
structure SignupPayload where
  name : String
  email : String
  password : String
deriving DecidableEq

/-- LoginPayload from src/main.py: email EmailStr, password str. -/
structure LoginPayload where
  email : String
  password : String
deriving DecidableEq

/-- ProfileUpdate from src/main.py: both fields optional, default null. -/
structure ProfileUpdate where
  name : Option String := none
  photo_url : Option String := none
deriving DecidableEq

/-- Pydantic validation of a SignupPayload body. name and password are plain
required strings (emptiness is not checked); email must parse as EmailStr. -/
def validateSignupPayload (j : List (String × Value)) : Option SignupPayload :=
  match asStr (j.lookup "name"), asStr (j.lookup "email"), asStr (j.lookup "password") with
  | some n, some e, some p => if isEmailSyntax e then some ⟨n, e, p⟩ else none
  | _, _, _ => none

/-- Pydantic validation of a RequestItem record, as src/schemas.py declares
it: user_id and type are required strings (type carries only a descriptive
docstring, no membership constraint), every variant field is optional with a
primitive type check when present, and status defaults to "sent". -/
def validateRequestItem (j : List (String × Value)) : Option RequestItem :=
  match asStr (j.lookup "user_id"), asStr (j.lookup "type") with
  | some uid, some ty =>
    match asOptStr (j.lookup "text"), asOptStr (j.lookup "voice_url"),
          asOptStr (j.lookup "photo_url"), asOptStr (j.lookup "contact_name"),
          asOptStr (j.lookup "contact_phone"), asOptLoc (j.lookup "location"),
          asOptDict (j.lookup "meta") with
    | some t, some vu, some pu, some cn, some cp, some l, some m =>
      match j.lookup "status" with
      | none => some ⟨uid, ty, t, vu, pu, cn, cp, l, "sent", m⟩
      | some (.str st) => some ⟨uid, ty, t, vu, pu, cn, cp, l, st, m⟩
      | some _ => none
    | _, _, _, _, _, _, _ => none
  | _, _ => none

/-- The recognized request-type labels named by the RequestItem docstring. -/
def recognizedTypes : List String := ["text", "voice", "photo", "contact", "location"]

/-! ## Handlers (src/main.py)

Each handler takes the store and returns the HTTP outcome together with the
store after the call. Store-generated identifiers and bcrypt salts are
nondeterministic inputs of the environment, so they are passed as arguments.
create_document and get_documents live in database.py, which is not part of
src/; they are modelled from the spec, section 4.3: createDocument persists
the validated record and returns its newly assigned identifier (an append
here), and findMany returns up to limit matches in store order. -/

/-- POST /auth/signup. -/
def signup (p : SignupPayload) (newOid salt : String) (s : Store) :
    Result Response × Store :=
  match s.users.find? (fun u => u.email == p.email) with
  | some _ => (.error ⟨400, "Email already registered"⟩, s)
  | none =>
    let hashed := hashDigest salt p.password
    let doc : UserDoc := ⟨newOid, some p.name, p.email, some hashed, none⟩
    (.ok (.obj [("id", .str newOid), ("email", .str p.email), ("name", .str p.name)]),
     { s with users := s.users ++ [doc] })

/-- POST /auth/login. Note the tolerant read of password_hash with default
empty string, exactly as user.get in the source. -/
def login (p : LoginPayload) (s : Store) : Result Response × Store :=
  match s.users.find? (fun u => u.email == p.email) with
  | none => (.error invalidCredentials, s)
  | some u =>
    if verify p.password (u.password_hash.getD "") then
      (.ok (.obj [("id", .str u.oid), ("email", .str u.email),
                  ("name", optStrVal u.name)]), s)
    else (.error invalidCredentials, s)

def profileObj (u : UserDoc) : Response :=
  .obj [("id", .str u.oid), ("email", .str u.email),
        ("name", optStrVal u.name), ("photo_url", optStrVal u.photo_url)]

/-- GET /profile/user_id. -/
def get_profile (user_id : String) (s : Store) : Result Response × Store :=
  if isValidObjectId user_id then
    match s.users.find? (fun u => u.oid == user_id) with
    | none => (.error ⟨404, "User not found"⟩, s)
    | some u => (.ok (profileObj u), s)
  else (.error ⟨400, "Invalid user id"⟩, s)

/-- Merge the non-null fields of the update into a user document, as the
update_one set operator does. -/
def setFields (p : ProfileUpdate) (u : UserDoc) : UserDoc :=
  { u with
    name := match p.name with | some n => some n | none => u.name
    photo_url := match p.photo_url with | some x => some x | none => u.photo_url }

/-- update_one touches the first document matching the key. -/
def updateFirst (user_id : String) (f : UserDoc → UserDoc) : List UserDoc → List UserDoc
  | [] => []
  | u :: rest => if u.oid == user_id then f u :: rest else u :: updateFirst user_id f rest

/-- PUT /profile/user_id. An update with zero non-null fields returns
updated false before any store call. When the id parses but matches no
document, the source dereferences None and the framework answers 500. -/
def update_profile (user_id : String) (p : ProfileUpdate) (s : Store) :
    Result Response × Store :=
  if isValidObjectId user_id then
    if p.name.isNone && p.photo_url.isNone then
      (.ok (.obj [("updated", .bool false)]), s)
    else
      let users' := updateFirst user_id (setFields p) s.users
      let s' : Store := { s with users := users' }
      match users'.find? (fun u => u.oid == user_id) with
      | none => (.error ⟨500, "Internal Server Error"⟩, s')
      | some u => (.ok (profileObj u), s')
  else (.error ⟨400, "Invalid user id"⟩, s)

/-- POST /request/text. -/
def send_text (user_id text : String) (newOid : String) (s : Store) :
    Result Response × Store :=
  let item : RequestItem := { user_id := user_id, type := "text", text := some text }
  (.ok (.obj [("id", .str newOid), ("status", .str "ok")]),
   { s with requests := s.requests ++ [⟨newOid, item⟩] })

/-- POST /request/contact. -/
def send_contact (user_id contact_name contact_phone : String) (newOid : String)
    (s : Store) : Result Response × Store :=
  let item : RequestItem :=
    { user_id := user_id, type := "contact",
      contact_name := some contact_name, contact_phone := some contact_phone }
  (.ok (.obj [("id", .str newOid), ("status", .str "ok")]),
   { s with requests := s.requests ++ [⟨newOid, item⟩] })

/-- POST /request/location. -/
def send_location (user_id : String) (lat lng : FloatBits) (newOid : String)
    (s : Store) : Result Response × Store :=
  let item : RequestItem :=
    { user_id := user_id, type := "location", location := some ⟨lat, lng⟩ }
  (.ok (.obj [("id", .str newOid), ("status", .str "ok")]),
   { s with requests := s.requests ++ [⟨newOid, item⟩] })

/-- POST /request/photo. The upload is measured, not persisted: the handler
keeps only a path built from the filename and the byte count in meta. -/
def send_photo (user_id filename : String) (contentSize : Nat) (newOid : String)
    (s : Store) : Result Response × Store :=
  let photo_url := "/uploads/" ++ filename
  let item : RequestItem :=
    { user_id := user_id, type := "photo", photo_url := some photo_url,
      meta := some [("size", contentSize)] }
  (.ok (.obj [("id", .str newOid), ("status", .str "ok"), ("photo_url", .str photo_url)]),
   { s with requests := s.requests ++ [⟨newOid, item⟩] })

/-- POST /request/voice. -/
def send_voice (user_id filename : String) (contentSize : Nat) (newOid : String)
    (s : Store) : Result Response × Store :=
  let voice_url := "/uploads/" ++ filename
  let item : RequestItem :=
    { user_id := user_id, type := "voice", voice_url := some voice_url,
      meta := some [("size", contentSize)] }
  (.ok (.obj [("id", .str newOid), ("status", .str "ok"), ("voice_url", .str voice_url)]),
   { s with requests := s.requests ++ [⟨newOid, item⟩] })

/-- One listed request document: every RequestItem field plus the stringified
store key under id, as the listing loop rewrites it. -/
def serializeReqDoc (d : ReqDoc) : List (String × Value) :=
  [("user_id", .str d.item.user_id), ("type", .str d.item.type),
   ("text", optStrVal d.item.text), ("voice_url", optStrVal d.item.voice_url),
   ("photo_url", optStrVal d.item.photo_url),
   ("contact_name", optStrVal d.item.contact_name),
   ("contact_phone", optStrVal d.item.contact_phone),
   ("location", optLocVal d.item.location),
   ("status", .str d.item.status), ("meta", optDictVal d.item.meta),
   ("id", .str d.oid)]

/-- GET /requests/user_id: up to 100 matching documents. -/
def list_requests (user_id : String) (s : Store) : Result Response × Store :=
  let docs := (s.requests.filter (fun d => d.item.user_id == user_id)).take 100
  (.ok (.arr (docs.map serializeReqDoc)), s)

/-! ## The operations of the core, as one step relation -/

inductive Op where
  | signup (p : SignupPayload) (newOid salt : String)
  | login (p : LoginPayload)
  | getProfile (user_id : String)
  | updateProfile (user_id : String) (p : ProfileUpdate)
  | sendText (user_id text newOid : String)
  | sendContact (user_id contact_name contact_phone newOid : String)
  | sendLocation (user_id : String) (lat lng : FloatBits) (newOid : String)
  | sendPhoto (user_id filename : String) (contentSize : Nat) (newOid : String)
  | sendVoice (user_id filename : String) (contentSize : Nat) (newOid : String)
  | listRequests (user_id : String)
deriving DecidableEq

def step : Op → Store → Result Response × Store
  | .signup p newOid salt, s => signup p newOid salt s
  | .login p, s => login p s
  | .getProfile uid, s => get_profile uid s
  | .updateProfile uid p, s => update_profile uid p s
  | .sendText uid t newOid, s => send_text uid t newOid s
  | .sendContact uid cn cp newOid, s => send_contact uid cn cp newOid s
  | .sendLocation uid lat lng newOid, s => send_location uid lat lng newOid s
  | .sendPhoto uid f sz newOid, s => send_photo uid f sz newOid s
  | .sendVoice uid f sz newOid, s => send_voice uid f sz newOid s
  | .listRequests uid, s => list_requests uid s

/-- Does an object body carry the given key. -/
def objHasKey (k : String) (fields : List (String × Value)) : Bool :=
  fields.any (fun kv => kv.1 == k)

def Response.hasKey (k : String) : Response → Bool
  | .obj f => objHasKey k f
  | .arr ds => ds.any (objHasKey k)

def resultHasKey (k : String) : Result Response → Bool
  | .ok r => r.hasKey k
  | .error _ => false

/-- Which operations are among the five request submissions. -/
def isSendOp : Op → Bool
  | .sendText _ _ _ => true
  | .sendContact _ _ _ _ => true
  | .sendLocation _ _ _ _ => true
  | .sendPhoto _ _ _ _ => true
  | .sendVoice _ _ _ _ => true
  | _ => false

/-- Does a success object report status ok. -/
def respStatusOk : Result Response → Bool
  | .ok (.obj f) => f.any (fun kv => kv.1 == "status" && kv.2 == Value.str "ok")
  | _ => false

/-- The request collection after a step extends the one before it: either
unchanged, or exactly one new document appended, created with status sent. -/
def requestsPreserved (s s' : Store) : Prop :=
  s'.requests = s.requests ∨
    ∃ d, s'.requests = s.requests ++ [d] ∧ d.item.status = "sent"

/-! ## Concrete fixtures used by witnesses -/

def demoUser : UserDoc :=
  ⟨"aaaaaaaaaaaaaaaaaaaaaaaa", some "Ana", "ana@x.com",
   some (hashDigest "salt0" "pw123"), none⟩

def demoStore : Store := ⟨[demoUser], []⟩

/-- A stored user document lacking the password_hash field. -/
def hashlessUser : UserDoc :=
  ⟨"cccccccccccccccccccccccc", some "Eve", "eve@x.com", none, none⟩

def hashlessStore : Store := ⟨[hashlessUser], []⟩

/-! ## Shared lemmas -/

lemma verify_malformed_false (plaintext d : String)
    (h : wellFormedDigest d = false) : verify plaintext d = false := by
  simp [verify, h]

lemma serializeReqDoc_no_password_hash (d : ReqDoc) :
    objHasKey "password_hash" (serializeReqDoc d) = false := rfl

/-! ## Claims -/

/-- C1: for every string that is not a valid 24-character hexadecimal store
key, both GET and PUT on the profile path answer the client error 400 with
detail Invalid user id, and never the 404 NotFound outcome. -/
theorem profile_invalid_id_client_error (user_id : String) (p : ProfileUpdate)
    (s : Store) (h : isValidObjectId user_id = false) :
    get_profile user_id s = (.error ⟨400, "Invalid user id"⟩, s) ∧
    update_profile user_id p s = (.error ⟨400, "Invalid user id"⟩, s) := by
  constructor <;> simp [get_profile, update_profile, h]

theorem profile_invalid_id_client_error_witness :
    get_profile "not-a-hex-id" emptyStore
      = (.error ⟨400, "Invalid user id"⟩, emptyStore) ∧
    update_profile "not-a-hex-id" ⟨some "x", none⟩ emptyStore
      = (.error ⟨400, "Invalid user id"⟩, emptyStore) :=
  profile_invalid_id_client_error "not-a-hex-id" ⟨some "x", none⟩ emptyStore (by decide)

/-- C2: a signup payload whose email equals the email of an already stored
user fails with 400 Email already registered and leaves the store unchanged. -/
theorem signup_duplicate_email_rejected (p : SignupPayload) (newOid salt : String)
    (s : Store) (u : UserDoc) (hu : u ∈ s.users) (he : u.email = p.email) :
    signup p newOid salt s = (.error ⟨400, "Email already registered"⟩, s) := by
  unfold signup
  cases hf : s.users.find? (fun v => v.email == p.email) with
  | none =>
    exfalso
    have hne := List.find?_eq_none.mp hf u hu
    simp [he] at hne
  | some v => simp

theorem signup_duplicate_email_rejected_witness :
    signup ⟨"Bob", "ana@x.com", "hunter2"⟩ "bbbbbbbbbbbbbbbbbbbbbbbb" "salt1" demoStore
      = (.error ⟨400, "Email already registered"⟩, demoStore) :=
  signup_duplicate_email_rejected ⟨"Bob", "ana@x.com", "hunter2"⟩
    "bbbbbbbbbbbbbbbbbbbbbbbb" "salt1" demoStore demoUser (by decide) rfl

/-- C3: every failing login, whether the email matches no stored user or the
password does not verify against the stored hash, produces the one identical
InvalidCredentials outcome, 400 with detail Invalid credentials, so the two
causes are not distinguishable from the response. -/
theorem login_failures_indistinguishable (p : LoginPayload) (s : Store) :
    (s.users.find? (fun u => u.email == p.email) = none →
      login p s = (.error invalidCredentials, s)) ∧
    (∀ u, s.users.find? (fun u => u.email == p.email) = some u →
      verify p.password (u.password_hash.getD "") = false →
      login p s = (.error invalidCredentials, s)) := by
  constructor
  · intro h
    simp [login, h]
  · intro u hu hv
    simp [login, hu, hv]

theorem login_failures_indistinguishable_witness :
    login ⟨"nobody@x.com", "pw123"⟩ demoStore = (.error invalidCredentials, demoStore) ∧
    login ⟨"ana@x.com", "wrong"⟩ demoStore = (.error invalidCredentials, demoStore) :=
  ⟨(login_failures_indistinguishable ⟨"nobody@x.com", "pw123"⟩ demoStore).1 (by decide),
   (login_failures_indistinguishable ⟨"ana@x.com", "wrong"⟩ demoStore).2 demoUser
     (by decide) (by decide)⟩

/-- C5: verify is a total boolean function that answers false on every
malformed digest (the empty string in particular), so a login against a user
document lacking the password_hash field yields the InvalidCredentials
outcome rather than an unhandled error. -/
theorem verify_total_and_login_safe :
    (∀ plaintext d, wellFormedDigest d = false → verify plaintext d = false) ∧
    (∀ (p : LoginPayload) (s : Store) (u : UserDoc),
      s.users.find? (fun x => x.email == p.email) = some u →
      u.password_hash = none →
      login p s = (.error invalidCredentials, s)) := by
  constructor
  · exact verify_malformed_false
  · intro p s u hu hp
    have hv : verify p.password (u.password_hash.getD "") = false := by
      rw [hp]
      exact verify_malformed_false p.password "" (by decide)
    simp [login, hu, hv]

theorem verify_total_and_login_safe_witness :
    verify "pw123" "" = false ∧
    login ⟨"eve@x.com", "pw123"⟩ hashlessStore
      = (.error invalidCredentials, hashlessStore) :=
  ⟨verify_total_and_login_safe.1 "pw123" "" (by decide),
   verify_total_and_login_safe.2 ⟨"eve@x.com", "pw123"⟩ hashlessStore hashlessUser
     (by decide) rfl⟩

/-- C6: for a well-formed identifier, a profile PUT whose body has zero
non-null fields answers updated false and performs no store write: the store
is returned unchanged. -/
theorem empty_profile_update_noop (user_id : String) (p : ProfileUpdate)
    (s : Store) (hv : isValidObjectId user_id = true)
    (h1 : p.name = none) (h2 : p.photo_url = none) :
    update_profile user_id p s = (.ok (.obj [("updated", .bool false)]), s) := by
  simp [update_profile, hv, h1, h2]

theorem empty_profile_update_noop_witness :
    update_profile "aaaaaaaaaaaaaaaaaaaaaaaa" ⟨none, none⟩ demoStore
      = (.ok (.obj [("updated", .bool false)]), demoStore) :=
  empty_profile_update_noop "aaaaaaaaaaaaaaaaaaaaaaaa" ⟨none, none⟩ demoStore
    (by decide) rfl rfl

/-- C7: no response body of any core operation — signup, login, profile GET,
profile PUT, the five submissions, the request listing — ever carries the
password_hash field of a user record. -/
theorem responses_never_expose_password_hash (op : Op) (s : Store) :
    resultHasKey "password_hash" (step op s).1 = false := by
  cases op with
  | signup p newOid salt =>
    cases hf : s.users.find? (fun u => u.email == p.email) <;>
      simp [step, signup, hf, resultHasKey, Response.hasKey, objHasKey]
  | login p =>
    cases hf : s.users.find? (fun u => u.email == p.email) with
    | none => simp [step, login, hf, resultHasKey]
    | some u =>
      cases hv : verify p.password (u.password_hash.getD "") <;>
        simp [step, login, hf, hv, resultHasKey, Response.hasKey, objHasKey]
  | getProfile uid =>
    cases hvd : isValidObjectId uid with
    | false => simp [step, get_profile, hvd, resultHasKey]
    | true =>
      cases hf : s.users.find? (fun u => u.oid == uid) <;>
        simp [step, get_profile, hvd, hf, resultHasKey, Response.hasKey,
              profileObj, objHasKey]
  | updateProfile uid p =>
    cases hvd : isValidObjectId uid with
    | false => simp [step, update_profile, hvd, resultHasKey]
    | true =>
      cases he : p.name.isNone && p.photo_url.isNone with
      | true =>
        simp [step, update_profile, hvd, he, resultHasKey, Response.hasKey, objHasKey]
      | false =>
        cases hf : (updateFirst uid (setFields p) s.users).find? (fun u => u.oid == uid) <;>
          simp [step, update_profile, hvd, he, hf, resultHasKey, Response.hasKey,
                profileObj, objHasKey]
  | sendText uid t newOid =>
    simp [step, send_text, resultHasKey, Response.hasKey, objHasKey]
  | sendContact uid cn cp newOid =>
    simp [step, send_contact, resultHasKey, Response.hasKey, objHasKey]
  | sendLocation uid lat lng newOid =>
    simp [step, send_location, resultHasKey, Response.hasKey, objHasKey]
  | sendPhoto uid f sz newOid =>
    simp [step, send_photo, resultHasKey, Response.hasKey, objHasKey]
  | sendVoice uid f sz newOid =>
    simp [step, send_voice, resultHasKey, Response.hasKey, objHasKey]
  | listRequests uid =>
    simp only [step, list_requests, resultHasKey, Response.hasKey]
    rw [List.any_eq_false]
    intro x hx
    rw [List.mem_map] at hx
    obtain ⟨d, -, rfl⟩ := hx
    simp [serializeReqDoc_no_password_hash d]

/-- C8: every RequestItem persisted by a core operation is created with
status sent, no operation ever modifies a stored RequestItem afterwards (the
request collection is only ever extended by exactly the new document), and
the submission response bodies themselves report status ok. -/
theorem request_items_sent_and_immutable (op : Op) (s : Store) :
    requestsPreserved s (step op s).2 ∧
    (isSendOp op = true → respStatusOk (step op s).1 = true) := by
  cases op with
  | signup p newOid salt =>
    refine ⟨Or.inl ?_, fun h => by simp [isSendOp] at h⟩
    cases hf : s.users.find? (fun u => u.email == p.email) <;> simp [step, signup, hf]
  | login p =>
    refine ⟨Or.inl ?_, fun h => by simp [isSendOp] at h⟩
    cases hf : s.users.find? (fun u => u.email == p.email) with
    | none => simp [step, login, hf]
    | some u =>
      cases hv : verify p.password (u.password_hash.getD "") <;>
        simp [step, login, hf, hv]
  | getProfile uid =>
    refine ⟨Or.inl ?_, fun h => by simp [isSendOp] at h⟩
    cases hvd : isValidObjectId uid with
    | false => simp [step, get_profile, hvd]
    | true =>
      cases hf : s.users.find? (fun u => u.oid == uid) <;>
        simp [step, get_profile, hvd, hf]
  | updateProfile uid p =>
    refine ⟨Or.inl ?_, fun h => by simp [isSendOp] at h⟩
    cases hvd : isValidObjectId uid with
    | false => simp [step, update_profile, hvd]
    | true =>
      cases he : p.name.isNone && p.photo_url.isNone with
      | true => simp [step, update_profile, hvd, he]
      | false =>
        cases hf : (updateFirst uid (setFields p) s.users).find? (fun u => u.oid == uid) <;>
          simp [step, update_profile, hvd, he, hf]
  | sendText uid t newOid =>
    exact ⟨Or.inr ⟨_, rfl, rfl⟩, fun _ => rfl⟩
  | sendContact uid cn cp newOid =>
    exact ⟨Or.inr ⟨_, rfl, rfl⟩, fun _ => rfl⟩
  | sendLocation uid lat lng newOid =>
    exact ⟨Or.inr ⟨_, rfl, rfl⟩, fun _ => rfl⟩
  | sendPhoto uid f sz newOid =>
    exact ⟨Or.inr ⟨_, rfl, rfl⟩, fun _ => rfl⟩
  | sendVoice uid f sz newOid =>
    exact ⟨Or.inr ⟨_, rfl, rfl⟩, fun _ => rfl⟩
  | listRequests uid =>
    exact ⟨Or.inl rfl, fun h => by simp [isSendOp] at h⟩

theorem request_items_sent_and_immutable_witness :
    requestsPreserved emptyStore
      (step (.sendText "u1" "hi" "dddddddddddddddddddddddd") emptyStore).2 ∧
    respStatusOk (step (.sendText "u1" "hi" "dddddddddddddddddddddddd") emptyStore).1
      = true :=
  ⟨(request_items_sent_and_immutable (.sendText "u1" "hi" "dddddddddddddddddddddddd")
      emptyStore).1,
   (request_items_sent_and_immutable (.sendText "u1" "hi" "dddddddddddddddddddddddd")
      emptyStore).2 rfl⟩

/-- C4 counterexample: the validation layer accepts a RequestItem whose type
is the unrecognized label carrier-pigeon, so a record with a type outside the
fixed set is not rejected by validation. -/
theorem requestitem_validation_accepts_unknown_type :
    ∃ r, validateRequestItem
        [("user_id", Value.str "u1"), ("type", Value.str "carrier-pigeon")] = some r ∧
      recognizedTypes.contains r.type = false :=
  ⟨⟨"u1", "carrier-pigeon", none, none, none, none, none, none, "sent", none⟩,
   by decide, by decide⟩

/-- C4 amended: the validation layer only requires type to be a string, but
every RequestItem newly persisted by a core operation has its type in the
recognized set, because each of the five submission operations writes a fixed
recognized label. -/
theorem persisted_request_types_recognized (op : Op) (s : Store) (d : ReqDoc)
    (h : d ∈ (step op s).2.requests) :
    d ∈ s.requests ∨ recognizedTypes.contains d.item.type = true := by
  cases op with
  | signup p newOid salt =>
    left
    cases hf : s.users.find? (fun u => u.email == p.email) <;>
      simp [step, signup, hf] at h <;> exact h
  | login p =>
    left
    cases hf : s.users.find? (fun u => u.email == p.email) with
    | none => simpa [step, login, hf] using h
    | some u =>
      cases hv : verify p.password (u.password_hash.getD "") <;>
        simpa [step, login, hf, hv] using h
  | getProfile uid =>
    left
    cases hvd : isValidObjectId uid with
    | false => simpa [step, get_profile, hvd] using h
    | true =>
      cases hf : s.users.find? (fun u => u.oid == uid) <;>
        simpa [step, get_profile, hvd, hf] using h
  | updateProfile uid p =>
    left
    cases hvd : isValidObjectId uid with
    | false => simpa [step, update_profile, hvd] using h
    | true =>
      cases he : p.name.isNone && p.photo_url.isNone with
      | true => simpa [step, update_profile, hvd, he] using h
      | false =>
        cases hf : (updateFirst uid (setFields p) s.users).find? (fun u => u.oid == uid) <;>
          simpa [step, update_profile, hvd, he, hf] using h
  | sendText uid t newOid =>
    simp [step, send_text, List.mem_append] at h
    rcases h with h | h
    · exact Or.inl h
    · subst h; right; rfl
  | sendContact uid cn cp newOid =>
    simp [step, send_contact, List.mem_append] at h
    rcases h with h | h
    · exact Or.inl h
    · subst h; right; rfl
  | sendLocation uid lat lng newOid =>
    simp [step, send_location, List.mem_append] at h
    rcases h with h | h
    · exact Or.inl h
    · subst h; right; rfl
  | sendPhoto uid f sz newOid =>
    simp [step, send_photo, List.mem_append] at h
    rcases h with h | h
    · exact Or.inl h
    · subst h; right; rfl
  | sendVoice uid f sz newOid =>
    simp [step, send_voice, List.mem_append] at h
    rcases h with h | h
    · exact Or.inl h
    · subst h; right; rfl
  | listRequests uid =>
    exact Or.inl h

def sentDoc : ReqDoc :=
  ⟨"dddddddddddddddddddddddd", { user_id := "u1", type := "text", text := some "hi" }⟩

theorem persisted_request_types_recognized_witness :
    sentDoc ∈ (step (.sendText "u1" "hi" "dddddddddddddddddddddddd") emptyStore).2.requests ∧
    (sentDoc ∈ emptyStore.requests ∨ recognizedTypes.contains sentDoc.item.type = true) :=
  ⟨by decide,
   persisted_request_types_recognized (.sendText "u1" "hi" "dddddddddddddddddddddddd")
     emptyStore sentDoc (by decide)⟩

/-- C9 counterexample: the validation layer accepts a signup payload whose
name is the empty string, and signup on that payload creates a user record,
so an empty name is not rejected. -/
theorem signup_accepts_empty_name :
    (∃ p, validateSignupPayload
        [("name", Value.str ""), ("email", Value.str "ana@x.com"),
         ("password", Value.str "pw123")] = some p ∧ p.name = "") ∧
    (signup ⟨"", "ana@x.com", "pw123"⟩ "eeeeeeeeeeeeeeeeeeeeeeee" "salt2"
        emptyStore).2.users.length = 1 :=
  ⟨⟨⟨"", "ana@x.com", "pw123"⟩, by decide, rfl⟩, by decide⟩

/-- C9 amended: name is a required field — a signup body missing it is
rejected by validation — but emptiness is not enforced: the empty name passes
validation unchanged. -/
theorem signup_name_required_not_nonempty (j : List (String × Value))
    (h : j.lookup "name" = none) :
    validateSignupPayload j = none ∧
    validateSignupPayload
        [("name", Value.str ""), ("email", Value.str "ana@x.com"),
         ("password", Value.str "pw123")]
      = some ⟨"", "ana@x.com", "pw123"⟩ := by
  constructor
  · simp [validateSignupPayload, h, asStr]
  · decide

theorem signup_name_required_not_nonempty_witness :
    validateSignupPayload [] = none ∧
    validateSignupPayload
        [("name", Value.str ""), ("email", Value.str "ana@x.com"),
         ("password", Value.str "pw123")]
      = some ⟨"", "ana@x.com", "pw123"⟩ :=
  signup_name_required_not_nonempty [] rfl

/-- C10: the request listing returns at most 100 documents: its length is
exactly the minimum of 100 and the number of stored requests matching the
user id, and the store is untouched. -/
theorem list_requests_capped_at_100 (user_id : String) (s : Store) :
    ∃ ds, list_requests user_id s = (.ok (.arr ds), s) ∧
      ds.length
        = min 100 ((s.requests.filter (fun d => d.item.user_id == user_id)).length) ∧
      ds.length ≤ 100 := by
  refine ⟨_, rfl, ?_, ?_⟩
  · simp [List.length_take]
  · simp [List.length_take]

end Backend
